import Mathlib

/-!
# btcsuite.go: the notification example of an RPC/websocket client

A shallow embedding of `main` and `example` of `btcsuite.go`.  Both functions
are straight-line sequences of calls into imported packages (`rpcclient`,
`btcutil`, `log`, `ioutil`, `time`), so the embedding is a function from an
environment, which says what every imported call returns, to the sequence of
calls the function performs (each with its arguments and its result) and the
way the function ends.
-/

namespace Btcsuite

/-! ## Values of the imported packages -/

/-- A byte slice. -/
abbrev Bytes := List Nat

/-- A non-nil Go `error`, represented by its message. -/
structure GoError where
  msg : String
  deriving DecidableEq, Repr

/-- A decoded address object; `ref` is the identity of the object, which is
what Go compares when a `btcutil.Address` is used as a map key. -/
structure Address where
  ref : Nat
  deriving DecidableEq, Repr

/-- A value of the interface type `btcutil.Address`: `none` is the nil interface. -/
abbrev GoAddress := Option Address

/-- A `*rpcclient.Client`. -/
structure Client where
  ref : Nat
  deriving DecidableEq, Repr

/-- The two chain parameter sets the file refers to
(`chaincfg.MainNetParams`, `chaincfg.TestNet3Params`). -/
inductive Params
  | MainNetParams
  | TestNet3Params
  deriving DecidableEq, Repr

/-- A `wire.OutPoint`: transaction hash and output index. -/
structure OutPoint where
  hash : Nat
  index : Nat
  deriving DecidableEq, Repr

/-- A `btcutil.Amount`, in satoshi. -/
abbrev Amount := Int

/-- A `*chainhash.Hash`. -/
abbrev Hash := Nat

/-- A `time.Time`. -/
abbrev Time := Nat

/-- A `*wire.BlockHeader`. -/
abbrev BlockHeader := Nat

/-- A `*btcutil.Tx`. -/
abbrev Tx := Nat

/-- A `*btcjson.BlockDetails`. -/
abbrev BlockDetails := Nat

/-- A `*btcjson.TxRawResult`. -/
abbrev TxRawResult := Nat

/-- A `json.RawMessage`. -/
abbrev RawMessage := List Nat

/-- A `time.Duration`: a number of nanoseconds. -/
abbrev Duration := Int

namespace time

def Nanosecond : Duration := 1
def Microsecond : Duration := 1000 * Nanosecond
def Millisecond : Duration := 1000 * Microsecond
def Second : Duration := 1000 * Millisecond
def Minute : Duration := 60 * Second
def Hour : Duration := 60 * Minute

end time

/-- A Go map as the list of its entries. -/
abbrev GoMap (κ ν : Type) := List (κ × ν)

/-- Storing `v` under `k`: an entry with an equal key is overwritten. -/
def GoMap.store {κ ν : Type} [DecidableEq κ] : GoMap κ ν → κ → ν → GoMap κ ν
  | [], k, v => [(k, v)]
  | (k0, v0) :: rest, k, v =>
    if k0 = k then (k, v) :: rest else (k0, v0) :: GoMap.store rest k v

/-- Reading the entry under `k`. -/
def GoMap.load {κ ν : Type} [DecidableEq κ] : GoMap κ ν → κ → Option ν
  | [], _ => none
  | (k0, v0) :: rest, k => if k0 = k then some v0 else GoMap.load rest k

/-- An argument handed to one of the `log` functions. -/
inductive LogValue
  | err (e : GoError)
  | addr (a : GoAddress)
  | str (s : String)
  | txs (l : List Tx)
  | amount (a : Amount)
  deriving DecidableEq, Repr

/-! ## Calls -/

/-- A call that takes no function value, with its arguments and what it returned. -/
inductive Effect
  | logPrintf (format : String) (args : List LogValue)
  | logPrintln (v : LogValue)
  | logFatal (v : LogValue)
  | logFatalf (format : String) (args : List LogValue)
  | readFile (path : String) (res : Bytes × Option GoError)
  | decodeAddress (addr : String) (net : Params) (res : GoAddress × Option GoError)
  | loadTxFilter (c : Client) (reload : Bool) (addresses : List GoAddress)
      (outPoints : List OutPoint) (res : Option GoError)
  | notifyBlocks (c : Client) (res : Option GoError)
  | notifyNewTransactions (c : Client) (verbose : Bool) (res : Option GoError)
  | shutdown (c : Client)
  | waitForShutdown (c : Client)
  | listAccounts (c : Client) (res : GoMap String Amount × Option GoError)
  | sendMany (c : Client) (fromAccount : String) (amounts : GoMap GoAddress Amount)
      (res : Hash × Option GoError)
  deriving DecidableEq, Repr

/-- Modelled from the spec: the connection configuration (`rpcclient.ConnConfig`),
whose declaration is in the imported package and not in the source.  The spec
lists its recognised options as
`{host, endpoint, user, pass, certificates, reconnectEnabled, timeout}`. -/
structure ConnConfig where
  Host : String
  Endpoint : String
  User : String
  Pass : String
  Certificates : Bytes
  ReconnectEnabled : Bool
  Timeout : Duration
  deriving DecidableEq, Repr

/-- The zero value of `ConnConfig`: what a Go composite literal leaves in
every field it does not mention. -/
def ConnConfig.zero : ConnConfig :=
  { Host := "", Endpoint := "", User := "", Pass := "", Certificates := [],
    ReconnectEnabled := false, Timeout := 0 }

/-- Modelled from the spec: the handler set (`rpcclient.NotificationHandlers`),
"mapping from event kind to caller-supplied callback; optional entries".  Its
declaration is in the imported package; the fields and the parameters of each
callback are those of the composite literal in `main`.  A callback is the
sequence of calls it performs when invoked; `none` is a nil callback. -/
structure NotificationHandlers where
  OnClientConnected : Option (Unit → List Effect)
  OnBlockConnected : Option (Hash → Int → Time → List Effect)
  OnFilteredBlockConnected : Option (Int → BlockHeader → List Tx → List Effect)
  OnBlockDisconnected : Option (Hash → Int → Time → List Effect)
  OnFilteredBlockDisconnected : Option (Int → BlockHeader → List Effect)
  OnRecvTx : Option (Tx → BlockDetails → List Effect)
  OnRedeemingTx : Option (Tx → BlockDetails → List Effect)
  OnRelevantTxAccepted : Option (Bytes → List Effect)
  OnRescanFinished : Option (Hash → Int → Time → List Effect)
  OnRescanProgress : Option (Hash → Int → Time → List Effect)
  OnTxAccepted : Option (Hash → Amount → List Effect)
  OnTxAcceptedVerbose : Option (TxRawResult → List Effect)
  OnBtcdConnected : Option (Bool → List Effect)
  OnAccountBalance : Option (String → Amount → Bool → List Effect)
  OnWalletLockState : Option (Bool → List Effect)
  OnUnknownNotification : Option (String → List RawMessage → List Effect)

/-- A call made by `main` or `example`. -/
inductive Action
  | eff (e : Effect)
  | newClient (cfg : ConnConfig) (handlers : NotificationHandlers)
      (res : Client × Option GoError)
  | afterFunc (d : Duration) (f : List Effect)

/-- What the imported packages return. -/
structure Env where
  appDataDir : String → Bool → String
  join : String → String → String
  readFile : String → Bytes × Option GoError
  newClient : ConnConfig → NotificationHandlers → Client × Option GoError
  decodeAddress : String → Params → GoAddress × Option GoError
  loadTxFilter : Client → Bool → List GoAddress → List OutPoint → Option GoError
  notifyBlocks : Client → Option GoError
  notifyNewTransactions : Client → Bool → Option GoError
  waitForShutdown : Client → Bool
  listAccounts : Client → GoMap String Amount × Option GoError
  sendMany : Client → String → GoMap GoAddress Amount → Hash × Option GoError
  hashString : Hash → String

/-- How a function ends: it returns, the process exits inside `log.Fatal` or
`log.Fatalf`, or it stays blocked in its last call. -/
inductive Outcome
  | returned
  | exited
  | blocked
  deriving DecidableEq, Repr

/-- The calls a function performed, in order, and how it ended. -/
structure Run where
  trace : List Action
  outcome : Outcome

/-- A run of `main`, with the value of its local variable `ntfnHandlers` at the end. -/
structure MainRun extends Run where
  ntfnHandlers : NotificationHandlers

/-! ## The source -/

/-- The composite literal of lines 30-79. -/
def ntfnHandlers : NotificationHandlers :=
  { OnClientConnected := some fun _ =>
      [Effect.logPrintf "OnClientConnected\n" []]
    OnBlockConnected := some fun _hash _height _t =>
      [Effect.logPrintf "OnBlockConnected\n" []]
    OnFilteredBlockConnected := some fun _height _header txs =>
      [Effect.logPrintf "OnFilteredBlockConnected: %v\n" [LogValue.txs txs]]
    OnBlockDisconnected := some fun _hash _height _t =>
      [Effect.logPrintf "OnBlockDisconnected\n" []]
    OnFilteredBlockDisconnected := some fun _height _header =>
      [Effect.logPrintf "OnFilteredBlockDisconnected\n" []]
    OnRecvTx := some fun _transaction _details =>
      [Effect.logPrintf "OnRecvTx\n" []]
    OnRedeemingTx := some fun _transaction _details =>
      [Effect.logPrintf "OnRedeemingTx\n" []]
    OnRelevantTxAccepted := some fun _transaction =>
      [Effect.logPrintf "OnRelevantTxAccepted\n" []]
    OnRescanFinished := some fun _hash _height _blkTime =>
      [Effect.logPrintf "OnRescanFinished\n" []]
    OnRescanProgress := some fun _hash _height _blkTime =>
      [Effect.logPrintf "OnRescanProgress\n" []]
    OnTxAccepted := some fun _hash _amount =>
      [Effect.logPrintf "OnTxAccepted\n" []]
    OnTxAcceptedVerbose := some fun _txDetails =>
      [Effect.logPrintf "OnTxAcceptedVerbose\n" []]
    OnBtcdConnected := some fun _connected =>
      [Effect.logPrintf "OnBtcdConnected\n" []]
    OnAccountBalance := some fun _account _balance _confirmed =>
      [Effect.logPrintf "OnAccountBalance\n" []]
    OnWalletLockState := some fun _locked =>
      [Effect.logPrintf "OnWalletLockState\n" []]
    OnUnknownNotification := some fun _method _params =>
      [Effect.logPrintf "OnUnknownNotification\n" []] }

/-- The composite literal of lines 86-93. -/
def connCfg (certs : Bytes) : ConnConfig :=
  { ConnConfig.zero with
    Host := "localhost:18334"
    Endpoint := "ws"
    User := "test"
    Pass := "test"
    Certificates := certs }

/-- The function literal handed to `time.AfterFunc` (lines 121-125). -/
def shutdownFunc (client : Client) : List Effect :=
  [ Effect.logPrintln (LogValue.str "Client shutting down..."),
    Effect.shutdown client,
    Effect.logPrintln (LogValue.str "Client shutdown complete.") ]

/-- The function `main` (lines 25-130).  A call that returns a value and an
error is bound to `res`; `res.1` is the value and `res.2` the error. -/
def main (env : Env) : MainRun :=
  let btcdHomeDir := env.appDataDir "btcd" false
  let certPath := env.join btcdHomeDir "rpc.cert"
  let res := env.readFile certPath
  let certs := res.1
  let t1 := [Action.eff (Effect.readFile certPath res)]
  match res.2 with
  | some err =>
    ⟨⟨t1 ++ [Action.eff (Effect.logFatal (LogValue.err err))], Outcome.exited⟩, ntfnHandlers⟩
  | none =>
  let connCfg := connCfg certs
  let res := env.newClient connCfg ntfnHandlers
  let client := res.1
  let t2 := t1 ++ [Action.newClient connCfg ntfnHandlers res]
  match res.2 with
  | some err =>
    ⟨⟨t2 ++ [Action.eff (Effect.logFatal (LogValue.err err))], Outcome.exited⟩, ntfnHandlers⟩
  | none =>
  let res := env.decodeAddress "moTY3Dk25jUo7n14VY94Z8aUCxiWuVs34h" Params.TestNet3Params
  let recvAddr := res.1
  let t3 := t2 ++ [Action.eff (Effect.decodeAddress "moTY3Dk25jUo7n14VY94Z8aUCxiWuVs34h"
    Params.TestNet3Params res)]
  match res.2 with
  | some _ =>
    ⟨⟨t3 ++ [Action.eff (Effect.logFatal (LogValue.addr recvAddr))], Outcome.exited⟩, ntfnHandlers⟩
  | none =>
  let t4 := t3 ++ [Action.eff (Effect.logPrintln (LogValue.addr recvAddr))]
  let filterAddrs := [recvAddr]
  let res := env.loadTxFilter client true filterAddrs []
  let t5 := t4 ++ [Action.eff (Effect.loadTxFilter client true filterAddrs [] res)]
  match res with
  | some err =>
    ⟨⟨t5 ++ [Action.eff (Effect.logFatal (LogValue.err err))], Outcome.exited⟩, ntfnHandlers⟩
  | none =>
  let res := env.notifyBlocks client
  let t6 := t5 ++ [Action.eff (Effect.notifyBlocks client res)]
  match res with
  | some err =>
    ⟨⟨t6 ++ [Action.eff (Effect.logFatal (LogValue.err err))], Outcome.exited⟩, ntfnHandlers⟩
  | none =>
  let res := env.notifyNewTransactions client true
  let t7 := t6 ++ [Action.eff (Effect.notifyNewTransactions client true res)]
  match res with
  | some err =>
    ⟨⟨t7 ++ [Action.eff (Effect.logFatal (LogValue.err err))], Outcome.exited⟩, ntfnHandlers⟩
  | none =>
  let t8 := t7 ++
    [ Action.eff (Effect.logPrintln (LogValue.str "Client shutdown in 6 hours...")),
      Action.afterFunc (6 * time.Hour) (shutdownFunc client),
      Action.eff (Effect.waitForShutdown client) ]
  ⟨⟨t8, if env.waitForShutdown client then Outcome.returned else Outcome.blocked⟩, ntfnHandlers⟩

/-- The function `example` (lines 132-161).  The map `accounts` is the list of
its entries in the order in which the `range` loop visits them. -/
def exampleFunc (env : Env) (client : Client) : Run :=
  let res := env.listAccounts client
  let accounts := res.1
  let t1 := [Action.eff (Effect.listAccounts client res)]
  match res.2 with
  | some err =>
    ⟨t1 ++ [Action.eff (Effect.logFatalf "error listing accounts: %v" [LogValue.err err])],
      Outcome.exited⟩
  | none =>
  let t2 := t1 ++ accounts.map fun entry =>
    Action.eff (Effect.logPrintf "%s: %s" [LogValue.str entry.1, LogValue.amount entry.2])
  let res := env.decodeAddress "1someAddressThatIsActuallyReal" Params.MainNetParams
  let receiver1 := res.1
  let t3 := t2 ++ [Action.eff (Effect.decodeAddress "1someAddressThatIsActuallyReal"
    Params.MainNetParams res)]
  match res.2 with
  | some err =>
    ⟨t3 ++ [Action.eff (Effect.logFatalf "address receiver1 seems to be invalid: %v"
      [LogValue.err err])], Outcome.exited⟩
  | none =>
  let res := env.decodeAddress "1anotherAddressThatsPrettyReal" Params.MainNetParams
  let receiver2 := res.1
  let t4 := t3 ++ [Action.eff (Effect.decodeAddress "1anotherAddressThatsPrettyReal"
    Params.MainNetParams res)]
  match res.2 with
  | some err =>
    ⟨t4 ++ [Action.eff (Effect.logFatalf "address receiver2 seems to be invalid: %v"
      [LogValue.err err])], Outcome.exited⟩
  | none =>
  let receivers := GoMap.store (GoMap.store [] receiver1 42) receiver2 100
  let res := env.sendMany client "some-account-label-from-which-to-send" receivers
  let txSha := res.1
  let t5 := t4 ++ [Action.eff (Effect.sendMany client "some-account-label-from-which-to-send"
    receivers res)]
  match res.2 with
  | some err =>
    ⟨t5 ++ [Action.eff (Effect.logFatalf "error sendMany: %v" [LogValue.err err])],
      Outcome.exited⟩
  | none =>
  ⟨t5 ++ [Action.eff (Effect.logPrintf "sendMany completed! tx sha is: %s"
    [LogValue.str (env.hashString txSha)])], Outcome.returned⟩

/-- The alphabet of Base58 (a constant of the imported package
`btcutil/base58`): the digits and letters without `0`, `O`, `I` and `l`. -/
def base58Alphabet : String :=
  "123456789ABCDEFGHJKLMNPQRSTUVWXYZabcdefghijkmnopqrstuvwxyz"

/-- Whether every character of `s` is in the Base58 alphabet. -/
def isBase58 (s : String) : Bool :=
  s.data.all fun c => base58Alphabet.data.contains c

/-! ## Reading a trace -/

/-- The kinds of call that occur in the file. -/
inductive Step
  | readFile
  | newClient
  | decodeAddress
  | loadTxFilter
  | notifyBlocks
  | notifyNewTransactions
  | afterFunc
  | waitForShutdown
  | shutdown
  | listAccounts
  | sendMany
  | log
  | fatal
  deriving DecidableEq, Repr

/-- The kind of a call. -/
def Effect.step : Effect → Step
  | Effect.logPrintf _ _ => Step.log
  | Effect.logPrintln _ => Step.log
  | Effect.logFatal _ => Step.fatal
  | Effect.logFatalf _ _ => Step.fatal
  | Effect.readFile _ _ => Step.readFile
  | Effect.decodeAddress _ _ _ => Step.decodeAddress
  | Effect.loadTxFilter _ _ _ _ _ => Step.loadTxFilter
  | Effect.notifyBlocks _ _ => Step.notifyBlocks
  | Effect.notifyNewTransactions _ _ _ => Step.notifyNewTransactions
  | Effect.shutdown _ => Step.shutdown
  | Effect.waitForShutdown _ => Step.waitForShutdown
  | Effect.listAccounts _ _ => Step.listAccounts
  | Effect.sendMany _ _ _ _ => Step.sendMany

/-- The kind of a call. -/
def Action.step : Action → Step
  | Action.eff e => e.step
  | Action.newClient _ _ _ => Step.newClient
  | Action.afterFunc _ _ => Step.afterFunc

/-- The error a call returned, `none` when it returned none or cannot return one. -/
def Effect.error : Effect → Option GoError
  | Effect.readFile _ res => res.2
  | Effect.decodeAddress _ _ res => res.2
  | Effect.loadTxFilter _ _ _ _ res => res
  | Effect.notifyBlocks _ res => res
  | Effect.notifyNewTransactions _ _ res => res
  | Effect.listAccounts _ res => res.2
  | Effect.sendMany _ _ _ res => res.2
  | _ => none

/-- The error a call returned, `none` when it returned none or cannot return one. -/
def Action.error : Action → Option GoError
  | Action.eff e => e.error
  | Action.newClient _ _ res => res.2
  | Action.afterFunc _ _ => none

/-- The path `main` reads the certificate from (lines 81-82). -/
def certPath (env : Env) : String :=
  env.join (env.appDataDir "btcd" false) "rpc.cert"

/-- The bytes `main` binds to `certs` (line 82). -/
def certs (env : Env) : Bytes :=
  (env.readFile (certPath env)).1

/-- The value `main` binds to `client` (line 94). -/
def client (env : Env) : Client :=
  (env.newClient (connCfg (certs env)) ntfnHandlers).1

/-- The value `main` binds to `recvAddr` (line 99). -/
def recvAddr (env : Env) : GoAddress :=
  (env.decodeAddress "moTY3Dk25jUo7n14VY94Z8aUCxiWuVs34h" Params.TestNet3Params).1

/-! ## Notifications -/

/-- The event kinds of the Notification Dispatcher: one for each callback of the
handler set. -/
inductive EventKind
  | clientConnected
  | blockConnected
  | filteredBlockConnected
  | blockDisconnected
  | filteredBlockDisconnected
  | recvTx
  | redeemingTx
  | relevantTxAccepted
  | rescanFinished
  | rescanProgress
  | txAccepted
  | txAcceptedVerbose
  | btcdConnected
  | accountBalance
  | walletLockState
  | unknownNotification
  deriving DecidableEq, Repr, Fintype

/-- A notification pushed by the node, with the values its callback receives. -/
inductive Notification
  | clientConnected
  | blockConnected (hash : Hash) (height : Int) (t : Time)
  | filteredBlockConnected (height : Int) (header : BlockHeader) (txs : List Tx)
  | blockDisconnected (hash : Hash) (height : Int) (t : Time)
  | filteredBlockDisconnected (height : Int) (header : BlockHeader)
  | recvTx (transaction : Tx) (details : BlockDetails)
  | redeemingTx (transaction : Tx) (details : BlockDetails)
  | relevantTxAccepted (transaction : Bytes)
  | rescanFinished (hash : Hash) (height : Int) (blkTime : Time)
  | rescanProgress (hash : Hash) (height : Int) (blkTime : Time)
  | txAccepted (hash : Hash) (amount : Amount)
  | txAcceptedVerbose (txDetails : TxRawResult)
  | btcdConnected (connected : Bool)
  | accountBalance (account : String) (balance : Amount) (confirmed : Bool)
  | walletLockState (locked : Bool)
  | unknownNotification (method : String) (params : List RawMessage)
  deriving DecidableEq, Repr

/-- The event kind of a notification. -/
def Notification.kind : Notification → EventKind
  | Notification.clientConnected => EventKind.clientConnected
  | Notification.blockConnected _ _ _ => EventKind.blockConnected
  | Notification.filteredBlockConnected _ _ _ => EventKind.filteredBlockConnected
  | Notification.blockDisconnected _ _ _ => EventKind.blockDisconnected
  | Notification.filteredBlockDisconnected _ _ => EventKind.filteredBlockDisconnected
  | Notification.recvTx _ _ => EventKind.recvTx
  | Notification.redeemingTx _ _ => EventKind.redeemingTx
  | Notification.relevantTxAccepted _ => EventKind.relevantTxAccepted
  | Notification.rescanFinished _ _ _ => EventKind.rescanFinished
  | Notification.rescanProgress _ _ _ => EventKind.rescanProgress
  | Notification.txAccepted _ _ => EventKind.txAccepted
  | Notification.txAcceptedVerbose _ => EventKind.txAcceptedVerbose
  | Notification.btcdConnected _ => EventKind.btcdConnected
  | Notification.accountBalance _ _ _ => EventKind.accountBalance
  | Notification.walletLockState _ => EventKind.walletLockState
  | Notification.unknownNotification _ _ => EventKind.unknownNotification

/-- The name of the handler field of an event kind, as written in the composite
literal of lines 30-79. -/
def fieldName : EventKind → String
  | EventKind.clientConnected => "OnClientConnected"
  | EventKind.blockConnected => "OnBlockConnected"
  | EventKind.filteredBlockConnected => "OnFilteredBlockConnected"
  | EventKind.blockDisconnected => "OnBlockDisconnected"
  | EventKind.filteredBlockDisconnected => "OnFilteredBlockDisconnected"
  | EventKind.recvTx => "OnRecvTx"
  | EventKind.redeemingTx => "OnRedeemingTx"
  | EventKind.relevantTxAccepted => "OnRelevantTxAccepted"
  | EventKind.rescanFinished => "OnRescanFinished"
  | EventKind.rescanProgress => "OnRescanProgress"
  | EventKind.txAccepted => "OnTxAccepted"
  | EventKind.txAcceptedVerbose => "OnTxAcceptedVerbose"
  | EventKind.btcdConnected => "OnBtcdConnected"
  | EventKind.accountBalance => "OnAccountBalance"
  | EventKind.walletLockState => "OnWalletLockState"
  | EventKind.unknownNotification => "OnUnknownNotification"

/-- Whether the callback of an event kind is set (non-nil). -/
def NotificationHandlers.registered (h : NotificationHandlers) : EventKind → Bool
  | EventKind.clientConnected => h.OnClientConnected.isSome
  | EventKind.blockConnected => h.OnBlockConnected.isSome
  | EventKind.filteredBlockConnected => h.OnFilteredBlockConnected.isSome
  | EventKind.blockDisconnected => h.OnBlockDisconnected.isSome
  | EventKind.filteredBlockDisconnected => h.OnFilteredBlockDisconnected.isSome
  | EventKind.recvTx => h.OnRecvTx.isSome
  | EventKind.redeemingTx => h.OnRedeemingTx.isSome
  | EventKind.relevantTxAccepted => h.OnRelevantTxAccepted.isSome
  | EventKind.rescanFinished => h.OnRescanFinished.isSome
  | EventKind.rescanProgress => h.OnRescanProgress.isSome
  | EventKind.txAccepted => h.OnTxAccepted.isSome
  | EventKind.txAcceptedVerbose => h.OnTxAcceptedVerbose.isSome
  | EventKind.btcdConnected => h.OnBtcdConnected.isSome
  | EventKind.accountBalance => h.OnAccountBalance.isSome
  | EventKind.walletLockState => h.OnWalletLockState.isSome
  | EventKind.unknownNotification => h.OnUnknownNotification.isSome

/-- Modelled from the spec: the Notification Dispatcher, which is in the imported
package: it "invokes the matching handler if registered"; a notification whose
kind has no callback is dropped. -/
def NotificationHandlers.dispatch (h : NotificationHandlers) : Notification → List Effect
  | Notification.clientConnected =>
    match h.OnClientConnected with
    | some f => f ()
    | none => []
  | Notification.blockConnected hash height t =>
    match h.OnBlockConnected with
    | some f => f hash height t
    | none => []
  | Notification.filteredBlockConnected height header txs =>
    match h.OnFilteredBlockConnected with
    | some f => f height header txs
    | none => []
  | Notification.blockDisconnected hash height t =>
    match h.OnBlockDisconnected with
    | some f => f hash height t
    | none => []
  | Notification.filteredBlockDisconnected height header =>
    match h.OnFilteredBlockDisconnected with
    | some f => f height header
    | none => []
  | Notification.recvTx transaction details =>
    match h.OnRecvTx with
    | some f => f transaction details
    | none => []
  | Notification.redeemingTx transaction details =>
    match h.OnRedeemingTx with
    | some f => f transaction details
    | none => []
  | Notification.relevantTxAccepted transaction =>
    match h.OnRelevantTxAccepted with
    | some f => f transaction
    | none => []
  | Notification.rescanFinished hash height blkTime =>
    match h.OnRescanFinished with
    | some f => f hash height blkTime
    | none => []
  | Notification.rescanProgress hash height blkTime =>
    match h.OnRescanProgress with
    | some f => f hash height blkTime
    | none => []
  | Notification.txAccepted hash amount =>
    match h.OnTxAccepted with
    | some f => f hash amount
    | none => []
  | Notification.txAcceptedVerbose txDetails =>
    match h.OnTxAcceptedVerbose with
    | some f => f txDetails
    | none => []
  | Notification.btcdConnected connected =>
    match h.OnBtcdConnected with
    | some f => f connected
    | none => []
  | Notification.accountBalance account balance confirmed =>
    match h.OnAccountBalance with
    | some f => f account balance confirmed
    | none => []
  | Notification.walletLockState locked =>
    match h.OnWalletLockState with
    | some f => f locked
    | none => []
  | Notification.unknownNotification method params =>
    match h.OnUnknownNotification with
    | some f => f method params
    | none => []

/-- What the theorems about log lines need of `log.Printf`, which is in the
imported package: the text of the format that stands before its first `%` is
written out unchanged at the start of the line. -/
def CopiesLiteral (sprintf : String → List LogValue → String) : Prop :=
  ∀ (lit rest : String) (args : List LogValue),
    '%' ∉ lit.data → lit.data <+: (sprintf (lit ++ rest) args).data

/-- The formatting of Go's `fmt` for the formats of this file: a `%` followed
by a verb (`v`, `s`) stands for the next argument, written by `showV`; `%%` is
a percent sign; a verb without an argument is reported as missing; every other
character is copied.  The flag says that the character before was a `%`. -/
def sprintfChars (showV : LogValue → String) : Bool → List Char → List LogValue → List Char
  | false, [], _ => []
  | true, [], _ => "%!(NOVERB)".data
  | false, c :: rest, args =>
    if c = '%' then sprintfChars showV true rest args
    else c :: sprintfChars showV false rest args
  | true, c :: rest, args =>
    if c = '%' then '%' :: sprintfChars showV false rest args
    else
      match args with
      | a :: args => (showV a).data ++ sprintfChars showV false rest args
      | [] => '%' :: '!' :: c :: "(MISSING)".data ++ sprintfChars showV false rest []

/-- The line `log.Printf format args` writes, without the header of the logger. -/
def sprintf (showV : LogValue → String) (format : String) (args : List LogValue) : String :=
  ⟨sprintfChars showV false format.data args⟩

/-- The text of a handler's format before its first `%`. -/
def literalOf : EventKind → String
  | EventKind.filteredBlockConnected => "OnFilteredBlockConnected: "
  | k => fieldName k ++ "\n"

/-! ## Executions -/

/-- All merges of two sequences that keep the order of each. -/
def interleave {α : Type} : List α → List α → List (List α)
  | [], ys => [ys]
  | x :: xs, [] => [x :: xs]
  | x :: xs, y :: ys =>
    (interleave xs (y :: ys)).map (x :: ·) ++ (interleave (x :: xs) ys).map (y :: ·)
termination_by xs ys => xs.length + ys.length

/-- The sequences of calls the process performs when `main` performs `t`.  The
function handed to `time.AfterFunc` is called once, in its own goroutine, so its
calls are merged into the calls made after the timer was scheduled. -/
def executions : List Action → List (List Action)
  | [] => [[]]
  | Action.afterFunc d f :: rest =>
    ((executions rest).flatMap fun e => interleave e (f.map Action.eff)).map
      (Action.afterFunc d f :: ·)
  | Action.eff e :: rest => (executions rest).map (Action.eff e :: ·)
  | Action.newClient cfg h res :: rest =>
    (executions rest).map (Action.newClient cfg h res :: ·)

/-- The sequences of calls that can be observed: the process may end at any
moment (the timer may not have fired yet), so every beginning of an execution
is one. -/
def runs (t : List Action) : List (List Action) :=
  (executions t).flatMap List.inits

/-- A call of kind `s` that returned no error occurs in `l`. -/
def ReturnedOk (s : Step) (l : List Action) : Prop :=
  ∃ x ∈ l, x.step = s ∧ x.error = none

instance (s : Step) (l : List Action) : Decidable (ReturnedOk s l) :=
  inferInstanceAs (Decidable (∃ x ∈ l, x.step = s ∧ x.error = none))

/-- The three subscription calls have returned without error in `l`. -/
def Subscribed (l : List Action) : Prop :=
  ReturnedOk Step.loadTxFilter l ∧ ReturnedOk Step.notifyBlocks l ∧
    ReturnedOk Step.notifyNewTransactions l

instance (l : List Action) : Decidable (Subscribed l) :=
  inferInstanceAs (Decidable (ReturnedOk Step.loadTxFilter l ∧
    ReturnedOk Step.notifyBlocks l ∧ ReturnedOk Step.notifyNewTransactions l))

/-- Every `Shutdown` call in `r` comes after the three subscription calls have
returned without error, where `seen` are the calls made before `r`. -/
def GuardedFrom (seen : List Action) : List Action → Prop
  | [] => True
  | a :: rest => (a.step = Step.shutdown → Subscribed seen) ∧ GuardedFrom (seen ++ [a]) rest

/-- Deciding `GuardedFrom`. -/
def GuardedFrom.decide : (seen r : List Action) → Decidable (GuardedFrom seen r)
  | _, [] => isTrue trivial
  | seen, a :: rest =>
    have := GuardedFrom.decide (seen ++ [a]) rest
    inferInstanceAs (Decidable
      ((a.step = Step.shutdown → Subscribed seen) ∧ GuardedFrom (seen ++ [a]) rest))

instance (seen r : List Action) : Decidable (GuardedFrom seen r) :=
  GuardedFrom.decide seen r

/-! ## Sample environments -/

/-- An environment in which every call succeeds. -/
def okEnv : Env :=
  { appDataDir := fun name _ => "/home/user/." ++ name
    join := fun dir file => dir ++ "/" ++ file
    readFile := fun _ => ([45, 45, 45], none)
    newClient := fun _ _ => (⟨1⟩, none)
    decodeAddress := fun s _ => (some ⟨(s.data.getD 1 'x').toNat⟩, none)
    loadTxFilter := fun _ _ _ _ => none
    notifyBlocks := fun _ => none
    notifyNewTransactions := fun _ _ => none
    waitForShutdown := fun _ => true
    listAccounts := fun _ => ([("default", 5000)], none)
    sendMany := fun _ _ _ => (7, none)
    hashString := fun _ => "07" }

/-- The environment `okEnv`, except that reading the certificate fails. -/
def readFileFails : Env :=
  { okEnv with readFile := fun _ => ([], some ⟨"open rpc.cert: no such file or directory"⟩) }

/-- The environment `okEnv`, except that `rpcclient.New` fails. -/
def newFails : Env :=
  { okEnv with newClient := fun _ _ => (⟨0⟩, some ⟨"connection refused"⟩) }

/-- The environment `okEnv`, except that `DecodeAddress` fails (and returns a nil address). -/
def decodeAddressFails : Env :=
  { okEnv with decodeAddress := fun _ _ => (none, some ⟨"checksum mismatch"⟩) }

/-- The environment `okEnv`, except that `LoadTxFilter` fails. -/
def loadTxFilterFails : Env :=
  { okEnv with loadTxFilter := fun _ _ _ _ => some ⟨"websocket connection required"⟩ }

/-- The environment `okEnv`, except that `NotifyBlocks` fails. -/
def notifyBlocksFails : Env :=
  { okEnv with notifyBlocks := fun _ => some ⟨"websocket connection required"⟩ }

/-- The environment `okEnv`, except that `NotifyNewTransactions` fails. -/
def notifyNewTransactionsFails : Env :=
  { okEnv with notifyNewTransactions := fun _ _ => some ⟨"websocket connection required"⟩ }

/-- The command of the header comment (line 21) that starts the node this
example connects to, split at the blanks. -/
def documentedCommand : List String :=
  ["btcd", "--rpcuser=test", "--rpcpass=test", "--testnet"]

/-- Modelled from the spec: the Subscription of the data model, "set of watched
addresses/outpoints (transaction filter)".  The source only calls into it. -/
structure Subscription where
  addresses : List GoAddress
  outPoints : List OutPoint
  deriving DecidableEq, Repr

/-- Modelled from the spec: the filter update `subscribe(filter)` of the
Session Controller, which is in the imported package.  In replace mode
"re-subscribing a filter replaces, not merges, previous watch criteria";
otherwise "Subscription state is monotonic": the criteria are added. -/
def Subscription.loadTxFilter (s : Subscription) (reload : Bool)
    (addresses : List GoAddress) (outPoints : List OutPoint) : Subscription :=
  if reload then ⟨addresses, outPoints⟩
  else ⟨s.addresses ++ addresses, s.outPoints ++ outPoints⟩

/-- A rendering of logged values, for the sample runs. -/
def sampleShow : LogValue → String
  | LogValue.err e => e.msg
  | LogValue.str s => s
  | LogValue.addr none => "<nil>"
  | LogValue.addr (some _) => "moTY3Dk25jUo7n14VY94Z8aUCxiWuVs34h"
  | LogValue.txs l => if l.isEmpty then "[]" else "[0xc000010000]"
  | LogValue.amount _ => "0.00005 BTC"

/-- The environment `okEnv` with a decoder that rejects every string with a
character outside the Base58 alphabet. -/
def base58Env : Env :=
  { okEnv with
    decodeAddress := fun s _ =>
      if isBase58 s then (some ⟨s.length⟩, none)
      else (none, some ⟨"decoded address is of unknown format"⟩) }

/-- The run of the process in `okEnv` in which the timer fires while `main`
waits in `WaitForShutdown`. -/
def okRun : List Action :=
  (main okEnv).trace ++ (shutdownFunc ⟨1⟩).map Action.eff

/-! ## The calls of `main`, with what the environment answers -/

def callReadFile (env : Env) : Action :=
  Action.eff (Effect.readFile (certPath env) (env.readFile (certPath env)))

def callNew (env : Env) : Action :=
  Action.newClient (connCfg (certs env)) ntfnHandlers
    (env.newClient (connCfg (certs env)) ntfnHandlers)

def callDecodeAddress (env : Env) : Action :=
  Action.eff (Effect.decodeAddress "moTY3Dk25jUo7n14VY94Z8aUCxiWuVs34h" Params.TestNet3Params
    (env.decodeAddress "moTY3Dk25jUo7n14VY94Z8aUCxiWuVs34h" Params.TestNet3Params))

def callPrintAddr (env : Env) : Action :=
  Action.eff (Effect.logPrintln (LogValue.addr (recvAddr env)))

def callLoadTxFilter (env : Env) : Action :=
  Action.eff (Effect.loadTxFilter (client env) true [recvAddr env] []
    (env.loadTxFilter (client env) true [recvAddr env] []))

def callNotifyBlocks (env : Env) : Action :=
  Action.eff (Effect.notifyBlocks (client env) (env.notifyBlocks (client env)))

def callNotifyNewTransactions (env : Env) : Action :=
  Action.eff (Effect.notifyNewTransactions (client env) true
    (env.notifyNewTransactions (client env) true))

def callPrintShutdown : Action :=
  Action.eff (Effect.logPrintln (LogValue.str "Client shutdown in 6 hours..."))

def callAfterFunc (env : Env) : Action :=
  Action.afterFunc (6 * time.Hour) (shutdownFunc (client env))

def callWaitForShutdown (env : Env) : Action :=
  Action.eff (Effect.waitForShutdown (client env))

def callFatal (v : LogValue) : Action :=
  Action.eff (Effect.logFatal v)

/-! ## Theorems -/

/-- The seven ways through `main`: one for each setup call that can return an
error, and the one in which none does. -/
theorem main_cases (env : Env) :
    (∃ e, (callReadFile env).error = some e ∧
      (main env).toRun = ⟨[callReadFile env, callFatal (LogValue.err e)], Outcome.exited⟩) ∨
    (∃ e, (callReadFile env).error = none ∧ (callNew env).error = some e ∧
      (main env).toRun =
        ⟨[callReadFile env, callNew env, callFatal (LogValue.err e)], Outcome.exited⟩) ∨
    (∃ e, (callReadFile env).error = none ∧ (callNew env).error = none ∧
      (callDecodeAddress env).error = some e ∧
      (main env).toRun =
        ⟨[callReadFile env, callNew env, callDecodeAddress env,
          callFatal (LogValue.addr (recvAddr env))], Outcome.exited⟩) ∨
    (∃ e, (callReadFile env).error = none ∧ (callNew env).error = none ∧
      (callDecodeAddress env).error = none ∧ (callLoadTxFilter env).error = some e ∧
      (main env).toRun =
        ⟨[callReadFile env, callNew env, callDecodeAddress env, callPrintAddr env,
          callLoadTxFilter env, callFatal (LogValue.err e)], Outcome.exited⟩) ∨
    (∃ e, (callReadFile env).error = none ∧ (callNew env).error = none ∧
      (callDecodeAddress env).error = none ∧ (callLoadTxFilter env).error = none ∧
      (callNotifyBlocks env).error = some e ∧
      (main env).toRun =
        ⟨[callReadFile env, callNew env, callDecodeAddress env, callPrintAddr env,
          callLoadTxFilter env, callNotifyBlocks env, callFatal (LogValue.err e)],
          Outcome.exited⟩) ∨
    (∃ e, (callReadFile env).error = none ∧ (callNew env).error = none ∧
      (callDecodeAddress env).error = none ∧ (callLoadTxFilter env).error = none ∧
      (callNotifyBlocks env).error = none ∧ (callNotifyNewTransactions env).error = some e ∧
      (main env).toRun =
        ⟨[callReadFile env, callNew env, callDecodeAddress env, callPrintAddr env,
          callLoadTxFilter env, callNotifyBlocks env, callNotifyNewTransactions env,
          callFatal (LogValue.err e)], Outcome.exited⟩) ∨
    ((callReadFile env).error = none ∧ (callNew env).error = none ∧
      (callDecodeAddress env).error = none ∧ (callLoadTxFilter env).error = none ∧
      (callNotifyBlocks env).error = none ∧ (callNotifyNewTransactions env).error = none ∧
      (main env).toRun =
        ⟨[callReadFile env, callNew env, callDecodeAddress env, callPrintAddr env,
          callLoadTxFilter env, callNotifyBlocks env, callNotifyNewTransactions env,
          callPrintShutdown, callAfterFunc env, callWaitForShutdown env],
          if env.waitForShutdown (client env) then Outcome.returned else Outcome.blocked⟩) := by
  simp only [callReadFile, callNew, callDecodeAddress, callPrintAddr, callLoadTxFilter,
    callNotifyBlocks, callNotifyNewTransactions, callPrintShutdown, callAfterFunc,
    callWaitForShutdown, callFatal, certPath, certs, client, recvAddr, Action.error,
    Effect.error, main]
  cases h1 : (env.readFile (env.join (env.appDataDir "btcd" false) "rpc.cert")).2 with
  | some e1 => simp
  | none =>
  cases h2 : (env.newClient (connCfg
      (env.readFile (env.join (env.appDataDir "btcd" false) "rpc.cert")).1) ntfnHandlers).2 with
  | some e2 => simp
  | none =>
  cases h3 : (env.decodeAddress "moTY3Dk25jUo7n14VY94Z8aUCxiWuVs34h" Params.TestNet3Params).2 with
  | some e3 => simp
  | none =>
  cases h4 : env.loadTxFilter
      (env.newClient (connCfg
        (env.readFile (env.join (env.appDataDir "btcd" false) "rpc.cert")).1) ntfnHandlers).1
      true [(env.decodeAddress "moTY3Dk25jUo7n14VY94Z8aUCxiWuVs34h" Params.TestNet3Params).1] [] with
  | some e4 => simp
  | none =>
  cases h5 : env.notifyBlocks
      (env.newClient (connCfg
        (env.readFile (env.join (env.appDataDir "btcd" false) "rpc.cert")).1) ntfnHandlers).1 with
  | some e5 => simp
  | none =>
  cases h6 : env.notifyNewTransactions
      (env.newClient (connCfg
        (env.readFile (env.join (env.appDataDir "btcd" false) "rpc.cert")).1) ntfnHandlers).1
      true with
  | some e6 => simp
  | none => simp

/-- Every call in a run of `main` is one of its eleven calls, and it is made
only when all setup calls before it returned no error. -/
theorem main_trace_mem (env : Env) (a : Action) (ha : a ∈ (main env).trace) :
    a = callReadFile env ∨
    (a = callNew env ∧ (callReadFile env).error = none) ∨
    (a = callDecodeAddress env ∧ (callReadFile env).error = none ∧
      (callNew env).error = none) ∨
    (a = callPrintAddr env ∧ (callReadFile env).error = none ∧
      (callNew env).error = none ∧ (callDecodeAddress env).error = none) ∨
    (a = callLoadTxFilter env ∧ (callReadFile env).error = none ∧
      (callNew env).error = none ∧ (callDecodeAddress env).error = none) ∨
    (a = callNotifyBlocks env ∧ (callReadFile env).error = none ∧
      (callNew env).error = none ∧ (callDecodeAddress env).error = none ∧
      (callLoadTxFilter env).error = none) ∨
    (a = callNotifyNewTransactions env ∧ (callReadFile env).error = none ∧
      (callNew env).error = none ∧ (callDecodeAddress env).error = none ∧
      (callLoadTxFilter env).error = none ∧ (callNotifyBlocks env).error = none) ∨
    ((a = callPrintShutdown ∨ a = callAfterFunc env ∨ a = callWaitForShutdown env) ∧
      (callReadFile env).error = none ∧
      (callNew env).error = none ∧ (callDecodeAddress env).error = none ∧
      (callLoadTxFilter env).error = none ∧ (callNotifyBlocks env).error = none ∧
      (callNotifyNewTransactions env).error = none) ∨
    (∃ v, a = callFatal v) := by
  rcases main_cases env with ⟨e, he, hm⟩ | ⟨e, h1, he, hm⟩ | ⟨e, h1, h2, he, hm⟩ |
    ⟨e, h1, h2, h3, he, hm⟩ | ⟨e, h1, h2, h3, h4, he, hm⟩ |
    ⟨e, h1, h2, h3, h4, h5, he, hm⟩ | ⟨h1, h2, h3, h4, h5, h6, hm⟩
  all_goals
    have ht : (main env).trace = _ := congrArg Run.trace hm
    rw [ht] at ha
    simp only [List.mem_cons, List.mem_singleton, List.not_mem_nil, or_false] at ha
  · rcases ha with rfl | rfl <;> simp
  · rcases ha with rfl | rfl | rfl <;> simp [h1]
  · rcases ha with rfl | rfl | rfl | rfl <;> simp [h1, h2]
  · rcases ha with rfl | rfl | rfl | rfl | rfl | rfl <;> simp [h1, h2, h3]
  · rcases ha with rfl | rfl | rfl | rfl | rfl | rfl | rfl <;> simp [h1, h2, h3, h4]
  · rcases ha with rfl | rfl | rfl | rfl | rfl | rfl | rfl | rfl <;>
      simp [h1, h2, h3, h4, h5]
  · rcases ha with rfl | rfl | rfl | rfl | rfl | rfl | rfl | rfl | rfl | rfl <;>
      simp [h1, h2, h3, h4, h5, h6]

/-- No handler's literal text contains a `%`. -/
theorem literalOf_verb_free (k : EventKind) : '%' ∉ (literalOf k).data := by
  cases k <;> decide

/-- Every handler's literal text begins with the name of its field. -/
theorem fieldName_literalOf (k : EventKind) : (fieldName k).data <+: (literalOf k).data := by
  cases k <;> decide

/-- No handler's literal text is the beginning of another handler's. -/
theorem literalOf_incomparable (k1 k2 : EventKind)
    (h : (literalOf k1).data <+: (literalOf k2).data) : k1 = k2 := by
  revert h
  cases k1 <;> cases k2 <;> decide

/-- Each callback of `ntfnHandlers` is one `log.Printf` whose format begins with
the literal text of its kind. -/
theorem dispatch_ntfnHandlers (n : Notification) :
    ∃ rest args,
      ntfnHandlers.dispatch n = [Effect.logPrintf (literalOf n.kind ++ rest) args] := by
  cases n
  case filteredBlockConnected height header txs =>
    exact ⟨"%v\n", [LogValue.txs txs], rfl⟩
  all_goals exact ⟨"", [], rfl⟩

/-- The formatting `sprintf` writes out the text before the first `%` unchanged. -/
theorem sprintfChars_literal (showV : LogValue → String) (lit rest : List Char)
    (args : List LogValue) (h : '%' ∉ lit) :
    lit <+: sprintfChars showV false (lit ++ rest) args := by
  induction lit with
  | nil => exact List.nil_prefix
  | cons c lit ih =>
    have hc : c ≠ '%' := fun hc => h (hc ▸ List.mem_cons_self _ _)
    have hl : '%' ∉ lit := fun hl => h (List.mem_cons_of_mem _ hl)
    simp only [List.cons_append, sprintfChars, hc, if_false]
    exact (List.prefix_cons_inj c).2 (ih hl)

/-- The formatting `sprintf` is one that `CopiesLiteral` admits. -/
theorem sprintf_copiesLiteral (showV : LogValue → String) : CopiesLiteral (sprintf showV) := by
  intro lit rest args h
  exact sprintfChars_literal showV lit.data rest.data args h

/-- The predicate `GuardedFrom` says what it is meant to say, at every position
of the run. -/
theorem guardedFrom_split (r : List Action) :
    ∀ seen : List Action, GuardedFrom seen r →
      ∀ before a after, r = before ++ a :: after → a.step = Step.shutdown →
        Subscribed (seen ++ before) := by
  induction r with
  | nil =>
    intro seen _ before a after h
    simp at h
  | cons x rest ih =>
    intro seen hg before a after h hs
    cases before with
    | nil =>
      simp only [List.nil_append, List.cons.injEq] at h
      obtain ⟨rfl, _⟩ := h
      simpa using hg.1 hs
    | cons b before =>
      simp only [List.cons_append, List.cons.injEq] at h
      obtain ⟨rfl, hr⟩ := h
      have := ih (seen ++ [x]) hg.2 before a after hr hs
      simpa using this

/-- A beginning of a run in which `Shutdown` is called at most once and only
after the subscriptions has these two properties too. -/
theorem shutdown_props_of_beginning (r full : List Action) (h : r <+: full)
    (hc : full.countP (fun a => decide (a.step = Step.shutdown)) ≤ 1)
    (hg : ∀ before a after, full = before ++ a :: after → a.step = Step.shutdown →
      Subscribed before) :
    r.countP (fun a => decide (a.step = Step.shutdown)) ≤ 1 ∧
    ∀ before a after, r = before ++ a :: after → a.step = Step.shutdown →
      Subscribed before := by
  refine ⟨le_trans (h.sublist.countP_le _) hc, ?_⟩
  intro before a after hr hs
  obtain ⟨tail, rfl⟩ := h
  exact hg before a (after ++ tail) (by simp [hr]) hs

/-- A trace without a timer has one execution: itself. -/
theorem executions_of_no_timer (t : List Action) (h : ∀ a ∈ t, a.step ≠ Step.afterFunc) :
    executions t = [t] := by
  induction t with
  | nil => rfl
  | cons a rest ih =>
    have hrest := ih (fun b hb => h b (List.mem_cons_of_mem _ hb))
    cases a with
    | eff e => simp [executions, hrest]
    | newClient cfg hs res => simp [executions, hrest]
    | afterFunc d f => exact absurd rfl (h _ (List.mem_cons_self _ _))

/-- A run without a `Shutdown` call calls it at most once, and never too early. -/
theorem shutdown_props_of_none (r : List Action) (h : ∀ a ∈ r, a.step ≠ Step.shutdown) :
    r.countP (fun a => decide (a.step = Step.shutdown)) ≤ 1 ∧
    ∀ before a after, r = before ++ a :: after → a.step = Step.shutdown →
      Subscribed before := by
  constructor
  · have : r.countP (fun a => decide (a.step = Step.shutdown)) = 0 := by
      rw [List.countP_eq_zero]
      intro a ha
      simpa using h a ha
    omega
  · intro before a after hr hs
    exact absurd hs (h a (by simp [hr]))

/-- The kinds of the calls of `main`; none is a `Shutdown`, one is a timer. -/
theorem step_calls (env : Env) :
    (callReadFile env).step = Step.readFile ∧ (callNew env).step = Step.newClient ∧
    (callDecodeAddress env).step = Step.decodeAddress ∧
    (callPrintAddr env).step = Step.log ∧
    (callLoadTxFilter env).step = Step.loadTxFilter ∧
    (callNotifyBlocks env).step = Step.notifyBlocks ∧
    (callNotifyNewTransactions env).step = Step.notifyNewTransactions ∧
    callPrintShutdown.step = Step.log ∧ (callAfterFunc env).step = Step.afterFunc ∧
    (callWaitForShutdown env).step = Step.waitForShutdown ∧
    ∀ v, (callFatal v).step = Step.fatal :=
  ⟨rfl, rfl, rfl, rfl, rfl, rfl, rfl, rfl, rfl, rfl, fun _ => rfl⟩

/-- The local variable `ntfnHandlers` of `main` holds the composite literal of
lines 30-79 when `main` ends: no statement assigns to it. -/
theorem main_ntfnHandlers (env : Env) : (main env).ntfnHandlers = ntfnHandlers := by
  simp only [main]
  repeat' split
  all_goals rfl

/-- C1. In every run of `main` in which no call returns an error, the calls
other than the two `log.Println` lines are, in this order: reading `rpc.cert`,
`rpcclient.New` with the handler set, `DecodeAddress`, `LoadTxFilter`,
`NotifyBlocks`, `NotifyNewTransactions`, `time.AfterFunc`, `WaitForShutdown`;
`WaitForShutdown` is the last call, and `main` returns exactly when that call
returns. -/
theorem main_setup_order (env : Env) (h : ∀ a ∈ (main env).trace, a.error = none) :
    (main env).trace =
      [ Action.eff (Effect.readFile (env.join (env.appDataDir "btcd" false) "rpc.cert")
          (certs env, none)),
        Action.newClient (connCfg (certs env)) ntfnHandlers (client env, none),
        Action.eff (Effect.decodeAddress "moTY3Dk25jUo7n14VY94Z8aUCxiWuVs34h"
          Params.TestNet3Params (recvAddr env, none)),
        Action.eff (Effect.logPrintln (LogValue.addr (recvAddr env))),
        Action.eff (Effect.loadTxFilter (client env) true [recvAddr env] [] none),
        Action.eff (Effect.notifyBlocks (client env) none),
        Action.eff (Effect.notifyNewTransactions (client env) true none),
        Action.eff (Effect.logPrintln (LogValue.str "Client shutdown in 6 hours...")),
        Action.afterFunc (6 * time.Hour) (shutdownFunc (client env)),
        Action.eff (Effect.waitForShutdown (client env)) ] ∧
    ((main env).trace.map Action.step).filter (fun s => decide (s ≠ Step.log)) =
      [ Step.readFile, Step.newClient, Step.decodeAddress, Step.loadTxFilter,
        Step.notifyBlocks, Step.notifyNewTransactions, Step.afterFunc,
        Step.waitForShutdown ] ∧
    (main env).trace.getLast? = some (Action.eff (Effect.waitForShutdown (client env))) ∧
    ((main env).outcome = Outcome.returned ↔ env.waitForShutdown (client env) = true) ∧
    ((main env).outcome = Outcome.blocked ↔ env.waitForShutdown (client env) = false) := by
  rcases main_cases env with ⟨e, he, hm⟩ | ⟨e, _, he, hm⟩ | ⟨e, _, _, he, hm⟩ |
    ⟨e, _, _, _, he, hm⟩ | ⟨e, _, _, _, _, he, hm⟩ | ⟨e, _, _, _, _, _, he, hm⟩ |
    ⟨h1, h2, h3, h4, h5, h6, hm⟩
  · have := h (callReadFile env) (by simp [hm])
    simp [he] at this
  · have := h (callNew env) (by simp [hm])
    simp [he] at this
  · have := h (callDecodeAddress env) (by simp [hm])
    simp [he] at this
  · have := h (callLoadTxFilter env) (by simp [hm])
    simp [he] at this
  · have := h (callNotifyBlocks env) (by simp [hm])
    simp [he] at this
  · have := h (callNotifyNewTransactions env) (by simp [hm])
    simp [he] at this
  · have r1 : env.readFile (certPath env) = (certs env, none) :=
      Prod.ext rfl h1
    have r2 : env.newClient (connCfg (certs env)) ntfnHandlers = (client env, none) :=
      Prod.ext rfl h2
    have r3 : env.decodeAddress "moTY3Dk25jUo7n14VY94Z8aUCxiWuVs34h" Params.TestNet3Params
        = (recvAddr env, none) := Prod.ext rfl h3
    have r4 : env.loadTxFilter (client env) true [recvAddr env] [] = none := h4
    have r5 : env.notifyBlocks (client env) = none := h5
    have r6 : env.notifyNewTransactions (client env) true = none := h6
    have ht : (main env).trace = _ := congrArg Run.trace hm
    have ho : (main env).outcome = _ := congrArg Run.outcome hm
    simp only [callReadFile, callNew, callDecodeAddress, callPrintAddr, callLoadTxFilter,
      callNotifyBlocks, callNotifyNewTransactions, callPrintShutdown, callAfterFunc,
      callWaitForShutdown, r1, r2, r3, r4, r5, r6] at ht
    rw [ht, ho]
    refine ⟨by simp [certPath], by simp [Action.step, Effect.step], by simp, ?_, ?_⟩
    · cases env.waitForShutdown (client env) <;> simp
    · cases env.waitForShutdown (client env) <;> simp

/-- Witness of `main_setup_order`: the run in which every call succeeds. -/
theorem main_setup_order_witness :
    (∀ a ∈ (main okEnv).trace, a.error = none) ∧
    ((main okEnv).trace.map Action.step).filter (fun s => decide (s ≠ Step.log)) =
      [ Step.readFile, Step.newClient, Step.decodeAddress, Step.loadTxFilter,
        Step.notifyBlocks, Step.notifyNewTransactions, Step.afterFunc,
        Step.waitForShutdown ] ∧
    (main okEnv).outcome = Outcome.returned :=
  have h : ∀ a ∈ (main okEnv).trace, a.error = none := by
    simp [main, okEnv, Action.error, Effect.error]
  ⟨h, (main_setup_order okEnv h).2.1, rfl⟩

/-- C2. When a call of `main` returns an error, that call is one of the six
setup calls, the next call is `log.Fatal`, which ends the run with the process
exited, the failed call was not made before (no retry), every earlier call
succeeded, and neither `time.AfterFunc` nor `WaitForShutdown` is ever called. -/
theorem main_fatal_on_error (env : Env) (a : Action) (ha : a ∈ (main env).trace)
    (hf : a.error ≠ none) :
    a.step ∈ [ Step.readFile, Step.newClient, Step.decodeAddress, Step.loadTxFilter,
      Step.notifyBlocks, Step.notifyNewTransactions ] ∧
    (∃ before v, (main env).trace = before ++ [a, Action.eff (Effect.logFatal v)] ∧
      (∀ b ∈ before, b.step ≠ a.step ∧ b.error = none)) ∧
    (main env).outcome = Outcome.exited ∧
    (∀ b ∈ (main env).trace, b.step ≠ Step.afterFunc ∧ b.step ≠ Step.waitForShutdown) := by
  rcases main_cases env with ⟨e, he, hm⟩ | ⟨e, h1, he, hm⟩ | ⟨e, h1, h2, he, hm⟩ |
    ⟨e, h1, h2, h3, he, hm⟩ | ⟨e, h1, h2, h3, h4, he, hm⟩ |
    ⟨e, h1, h2, h3, h4, h5, he, hm⟩ | ⟨h1, h2, h3, h4, h5, h6, hm⟩
  all_goals
    have ht : (main env).trace = _ := congrArg Run.trace hm
    have ho : (main env).outcome = _ := congrArg Run.outcome hm
    have p1 : (callPrintAddr env).error = none := rfl
    have p2 : callPrintShutdown.error = none := rfl
    have p3 : (callAfterFunc env).error = none := rfl
    have p4 : (callWaitForShutdown env).error = none := rfl
    have p5 : ∀ v, (callFatal v).error = none := fun _ => rfl
    have s1 : (callReadFile env).step = Step.readFile := rfl
    have s2 : (callNew env).step = Step.newClient := rfl
    have s3 : (callDecodeAddress env).step = Step.decodeAddress := rfl
    have s4 : (callPrintAddr env).step = Step.log := rfl
    have s5 : (callLoadTxFilter env).step = Step.loadTxFilter := rfl
    have s6 : (callNotifyBlocks env).step = Step.notifyBlocks := rfl
    have s7 : (callNotifyNewTransactions env).step = Step.notifyNewTransactions := rfl
    have s8 : ∀ v, (callFatal v).step = Step.fatal := fun _ => rfl
    rw [ht] at ha ⊢
    rw [ho]
    simp only [List.mem_cons, List.mem_singleton, List.not_mem_nil, or_false] at ha
  · rcases ha with rfl | rfl
    · refine ⟨by simp [s1, s2, s3, s4, s5, s6, s7, s8],
        ⟨[], LogValue.err e, rfl, by simp⟩, rfl, ?_⟩
      simp [s1, s2, s3, s4, s5, s6, s7, s8]
    · exact absurd (p5 _) hf
  · rcases ha with rfl | rfl | rfl
    · exact absurd h1 hf
    · refine ⟨by simp [s1, s2, s3, s4, s5, s6, s7, s8],
        ⟨[callReadFile env], LogValue.err e, rfl, ?_⟩, rfl, ?_⟩
      · simp [s1, s2, s3, s4, s5, s6, s7, s8, h1]
      · simp [s1, s2, s3, s4, s5, s6, s7, s8]
    · exact absurd (p5 _) hf
  · rcases ha with rfl | rfl | rfl | rfl
    · exact absurd h1 hf
    · exact absurd h2 hf
    · refine ⟨by simp [s1, s2, s3, s4, s5, s6, s7, s8],
        ⟨[callReadFile env, callNew env], LogValue.addr (recvAddr env), rfl, ?_⟩, rfl, ?_⟩
      · simp [s1, s2, s3, s4, s5, s6, s7, s8, h1, h2]
      · simp [s1, s2, s3, s4, s5, s6, s7, s8]
    · exact absurd (p5 _) hf
  · rcases ha with rfl | rfl | rfl | rfl | rfl | rfl
    · exact absurd h1 hf
    · exact absurd h2 hf
    · exact absurd h3 hf
    · exact absurd p1 hf
    · refine ⟨by simp [s1, s2, s3, s4, s5, s6, s7, s8],
        ⟨[callReadFile env, callNew env, callDecodeAddress env, callPrintAddr env],
          LogValue.err e, rfl, ?_⟩, rfl, ?_⟩
      · simp [s1, s2, s3, s4, s5, s6, s7, s8, h1, h2, h3, p1]
      · simp [s1, s2, s3, s4, s5, s6, s7, s8]
    · exact absurd (p5 _) hf
  · rcases ha with rfl | rfl | rfl | rfl | rfl | rfl | rfl
    · exact absurd h1 hf
    · exact absurd h2 hf
    · exact absurd h3 hf
    · exact absurd p1 hf
    · exact absurd h4 hf
    · refine ⟨by simp [s1, s2, s3, s4, s5, s6, s7, s8],
        ⟨[callReadFile env, callNew env, callDecodeAddress env, callPrintAddr env,
          callLoadTxFilter env], LogValue.err e, rfl, ?_⟩, rfl, ?_⟩
      · simp [s1, s2, s3, s4, s5, s6, s7, s8, h1, h2, h3, h4, p1]
      · simp [s1, s2, s3, s4, s5, s6, s7, s8]
    · exact absurd (p5 _) hf
  · rcases ha with rfl | rfl | rfl | rfl | rfl | rfl | rfl | rfl
    · exact absurd h1 hf
    · exact absurd h2 hf
    · exact absurd h3 hf
    · exact absurd p1 hf
    · exact absurd h4 hf
    · exact absurd h5 hf
    · refine ⟨by simp [s1, s2, s3, s4, s5, s6, s7, s8],
        ⟨[callReadFile env, callNew env, callDecodeAddress env, callPrintAddr env,
          callLoadTxFilter env, callNotifyBlocks env], LogValue.err e, rfl, ?_⟩, rfl, ?_⟩
      · simp [s1, s2, s3, s4, s5, s6, s7, s8, h1, h2, h3, h4, h5, p1]
      · simp [s1, s2, s3, s4, s5, s6, s7, s8]
    · exact absurd (p5 _) hf
  · rcases ha with rfl | rfl | rfl | rfl | rfl | rfl | rfl | rfl | rfl | rfl
    · exact absurd h1 hf
    · exact absurd h2 hf
    · exact absurd h3 hf
    · exact absurd p1 hf
    · exact absurd h4 hf
    · exact absurd h5 hf
    · exact absurd h6 hf
    · exact absurd p2 hf
    · exact absurd p3 hf
    · exact absurd p4 hf

/-- Witness of `main_fatal_on_error`: one run for each of the six setup calls,
in which that call returns an error. -/
theorem main_fatal_on_error_witness :
    (callReadFile readFileFails ∈ (main readFileFails).trace ∧
      (callReadFile readFileFails).error ≠ none ∧
      (main readFileFails).outcome = Outcome.exited) ∧
    (callNew newFails ∈ (main newFails).trace ∧
      (callNew newFails).error ≠ none ∧
      (main newFails).outcome = Outcome.exited) ∧
    (callDecodeAddress decodeAddressFails ∈ (main decodeAddressFails).trace ∧
      (callDecodeAddress decodeAddressFails).error ≠ none ∧
      (main decodeAddressFails).outcome = Outcome.exited) ∧
    (callLoadTxFilter loadTxFilterFails ∈ (main loadTxFilterFails).trace ∧
      (callLoadTxFilter loadTxFilterFails).error ≠ none ∧
      (main loadTxFilterFails).outcome = Outcome.exited) ∧
    (callNotifyBlocks notifyBlocksFails ∈ (main notifyBlocksFails).trace ∧
      (callNotifyBlocks notifyBlocksFails).error ≠ none ∧
      (main notifyBlocksFails).outcome = Outcome.exited) ∧
    (callNotifyNewTransactions notifyNewTransactionsFails ∈
        (main notifyNewTransactionsFails).trace ∧
      (callNotifyNewTransactions notifyNewTransactionsFails).error ≠ none ∧
      (main notifyNewTransactionsFails).outcome = Outcome.exited) :=
  have m1 : callReadFile readFileFails ∈ (main readFileFails).trace := by
    simp [main, readFileFails, okEnv, callReadFile, certPath]
  have e1 : (callReadFile readFileFails).error ≠ none := by
    simp [readFileFails, callReadFile, Action.error, Effect.error]
  have m2 : callNew newFails ∈ (main newFails).trace := by
    simp [main, newFails, okEnv, callNew, certs, certPath]
  have e2 : (callNew newFails).error ≠ none := by
    simp [newFails, callNew, Action.error]
  have m3 : callDecodeAddress decodeAddressFails ∈ (main decodeAddressFails).trace := by
    simp [main, decodeAddressFails, okEnv, callDecodeAddress]
  have e3 : (callDecodeAddress decodeAddressFails).error ≠ none := by
    simp [decodeAddressFails, callDecodeAddress, Action.error, Effect.error]
  have m4 : callLoadTxFilter loadTxFilterFails ∈ (main loadTxFilterFails).trace := by
    simp [main, loadTxFilterFails, okEnv, callLoadTxFilter, client, recvAddr, certs, certPath]
  have e4 : (callLoadTxFilter loadTxFilterFails).error ≠ none := by
    simp [loadTxFilterFails, callLoadTxFilter, Action.error, Effect.error]
  have m5 : callNotifyBlocks notifyBlocksFails ∈ (main notifyBlocksFails).trace := by
    simp [main, notifyBlocksFails, okEnv, callNotifyBlocks, client, certs, certPath]
  have e5 : (callNotifyBlocks notifyBlocksFails).error ≠ none := by
    simp [notifyBlocksFails, callNotifyBlocks, Action.error, Effect.error]
  have m6 : callNotifyNewTransactions notifyNewTransactionsFails ∈
      (main notifyNewTransactionsFails).trace := by
    simp [main, notifyNewTransactionsFails, okEnv, callNotifyNewTransactions, client, certs,
      certPath]
  have e6 : (callNotifyNewTransactions notifyNewTransactionsFails).error ≠ none := by
    simp [notifyNewTransactionsFails, callNotifyNewTransactions, Action.error, Effect.error]
  ⟨⟨m1, e1, (main_fatal_on_error _ _ m1 e1).2.2.1⟩,
   ⟨m2, e2, (main_fatal_on_error _ _ m2 e2).2.2.1⟩,
   ⟨m3, e3, (main_fatal_on_error _ _ m3 e3).2.2.1⟩,
   ⟨m4, e4, (main_fatal_on_error _ _ m4 e4).2.2.1⟩,
   ⟨m5, e5, (main_fatal_on_error _ _ m5 e5).2.2.1⟩,
   ⟨m6, e6, (main_fatal_on_error _ _ m6 e6).2.2.1⟩⟩

/-- C3. Every timer a run of `main` schedules has the delay `6*time.Hour`,
which is 21600 seconds and not the 10 seconds of the comment of line 117. -/
theorem main_timer_delay (env : Env) (d : Duration) (f : List Effect)
    (h : Action.afterFunc d f ∈ (main env).trace) :
    d = 6 * time.Hour ∧ d = 21600 * time.Second ∧ d ≠ 10 * time.Second ∧
    f = shutdownFunc (client env) := by
  have hd : (6 : Duration) * time.Hour = 21600 * time.Second := by
    simp [time.Hour, time.Minute]
    ring
  have hs : (21600 : Duration) * time.Second ≠ 10 * time.Second := by
    simp [time.Second, time.Millisecond, time.Microsecond, time.Nanosecond]
  rcases main_trace_mem env _ h with h | ⟨h, _⟩ | ⟨h, _⟩ | ⟨h, _⟩ | ⟨h, _⟩ | ⟨h, _⟩ |
    ⟨h, _⟩ | ⟨h | h | h, _⟩ | ⟨v, h⟩
  all_goals
    simp only [callReadFile, callNew, callDecodeAddress, callPrintAddr, callLoadTxFilter,
      callNotifyBlocks, callNotifyNewTransactions, callPrintShutdown, callAfterFunc,
      callWaitForShutdown, callFatal, Action.afterFunc.injEq, reduceCtorEq] at h
  obtain ⟨rfl, rfl⟩ := h
  exact ⟨rfl, hd, hd ▸ hs, rfl⟩

/-- Witness of `main_timer_delay`: the run in which every call succeeds. -/
theorem main_timer_delay_witness :
    Action.afterFunc (6 * time.Hour) (shutdownFunc ⟨1⟩) ∈ (main okEnv).trace ∧
    (6 : Duration) * time.Hour ≠ 10 * time.Second :=
  have h : Action.afterFunc (6 * time.Hour) (shutdownFunc ⟨1⟩) ∈ (main okEnv).trace := by
    simp [main, okEnv]
  ⟨h, (main_timer_delay okEnv _ _ h).2.2.1⟩

/-- C4. The configuration a run of `main` hands to `rpcclient.New` has
`Host = "localhost:18334"` (not mainnet's port 8334), `Endpoint = "ws"`,
`User = "test"` and `Pass = "test"` (the credentials of the documented
command), `Certificates` equal to the bytes that reading `rpc.cert` in the
application data directory of btcd returned without error, and every other
option at its zero value. -/
theorem main_conn_config (env : Env) (cfg : ConnConfig) (handlers : NotificationHandlers)
    (res : Client × Option GoError)
    (h : Action.newClient cfg handlers res ∈ (main env).trace) :
    cfg = { Host := "localhost:18334", Endpoint := "ws", User := "test", Pass := "test",
            Certificates := (env.readFile
              (env.join (env.appDataDir "btcd" false) "rpc.cert")).1,
            ReconnectEnabled := ConnConfig.zero.ReconnectEnabled,
            Timeout := ConnConfig.zero.Timeout } ∧
    Action.eff (Effect.readFile (env.join (env.appDataDir "btcd" false) "rpc.cert")
      (cfg.Certificates, none)) ∈ (main env).trace ∧
    cfg.Host ≠ "localhost:8334" ∧
    "--rpcuser=" ++ cfg.User ∈ documentedCommand ∧
    "--rpcpass=" ++ cfg.Pass ∈ documentedCommand ∧
    "--testnet" ∈ documentedCommand ∧
    cfg.ReconnectEnabled = false ∧ cfg.Timeout = 0 := by
  have hr : callReadFile env ∈ (main env).trace := by
    rcases main_cases env with ⟨e, he, hm⟩ | ⟨e, h1, he, hm⟩ | ⟨e, h1, h2, he, hm⟩ |
      ⟨e, h1, h2, h3, he, hm⟩ | ⟨e, h1, h2, h3, h4, he, hm⟩ |
      ⟨e, h1, h2, h3, h4, h5, he, hm⟩ | ⟨h1, h2, h3, h4, h5, h6, hm⟩
    all_goals
      have ht : (main env).trace = _ := congrArg Run.trace hm
      rw [ht]
      simp
  rcases main_trace_mem env _ h with h | ⟨h, h1⟩ | ⟨h, _⟩ | ⟨h, _⟩ | ⟨h, _⟩ | ⟨h, _⟩ |
    ⟨h, _⟩ | ⟨h | h | h, _⟩ | ⟨v, h⟩
  all_goals
    simp only [callReadFile, callNew, callDecodeAddress, callPrintAddr, callLoadTxFilter,
      callNotifyBlocks, callNotifyNewTransactions, callPrintShutdown, callAfterFunc,
      callWaitForShutdown, callFatal, Action.newClient.injEq, reduceCtorEq] at h
  obtain ⟨rfl, rfl, rfl⟩ := h
  have r1 : env.readFile (certPath env) = (certs env, none) := Prod.ext rfl h1
  have hH : (connCfg (certs env)).Host = "localhost:18334" := rfl
  have hU : (connCfg (certs env)).User = "test" := rfl
  have hP : (connCfg (certs env)).Pass = "test" := rfl
  refine ⟨rfl, ?_, by rw [hH]; decide, by rw [hU]; decide, by rw [hP]; decide, by decide,
    rfl, rfl⟩
  have : callReadFile env = Action.eff (Effect.readFile
      (env.join (env.appDataDir "btcd" false) "rpc.cert") ((connCfg (certs env)).Certificates,
        none)) := by
    simp only [callReadFile, r1]
    rfl
  rw [← this]
  exact hr

/-- Witness of `main_conn_config`: the run in which every call succeeds. -/
theorem main_conn_config_witness :
    Action.newClient (connCfg [45, 45, 45]) ntfnHandlers (⟨1⟩, none) ∈ (main okEnv).trace ∧
    "--rpcuser=" ++ (connCfg [45, 45, 45]).User ∈ documentedCommand :=
  have h : Action.newClient (connCfg [45, 45, 45]) ntfnHandlers (⟨1⟩, none) ∈
      (main okEnv).trace := by
    simp [main, okEnv]
  ⟨h, (main_conn_config okEnv _ _ _ h).2.2.2.1⟩

/-- C5. Every `LoadTxFilter` call of `main` is issued with `reload = true`,
with exactly one address, the one that decoding
"moTY3Dk25jUo7n14VY94Z8aUCxiWuVs34h" under the testnet3 parameters returned
without error, and with no outpoints; applied to any subscription it leaves
exactly these criteria (it replaces, it does not merge), and applying it twice
leaves the same subscription as applying it once. -/
theorem main_tx_filter (env : Env) (c : Client) (reload : Bool) (addresses : List GoAddress)
    (outPoints : List OutPoint) (res : Option GoError)
    (h : Action.eff (Effect.loadTxFilter c reload addresses outPoints res) ∈
      (main env).trace) :
    reload = true ∧
    addresses =
      [(env.decodeAddress "moTY3Dk25jUo7n14VY94Z8aUCxiWuVs34h" Params.TestNet3Params).1] ∧
    (env.decodeAddress "moTY3Dk25jUo7n14VY94Z8aUCxiWuVs34h" Params.TestNet3Params).2 = none ∧
    outPoints = [] ∧
    (∀ s : Subscription, s.loadTxFilter reload addresses outPoints =
      ⟨[(env.decodeAddress "moTY3Dk25jUo7n14VY94Z8aUCxiWuVs34h" Params.TestNet3Params).1],
        []⟩) ∧
    (∀ s : Subscription,
      (s.loadTxFilter reload addresses outPoints).loadTxFilter reload addresses outPoints =
        s.loadTxFilter reload addresses outPoints) := by
  rcases main_trace_mem env _ h with h | ⟨h, _⟩ | ⟨h, _⟩ | ⟨h, _⟩ | ⟨h, _, _, h3⟩ | ⟨h, _⟩ |
    ⟨h, _⟩ | ⟨h | h | h, _⟩ | ⟨v, h⟩
  all_goals
    simp only [callReadFile, callNew, callDecodeAddress, callPrintAddr, callLoadTxFilter,
      callNotifyBlocks, callNotifyNewTransactions, callPrintShutdown, callAfterFunc,
      callWaitForShutdown, callFatal, Action.eff.injEq, Effect.loadTxFilter.injEq,
      reduceCtorEq] at h
  obtain ⟨rfl, rfl, rfl, rfl, rfl⟩ := h
  exact ⟨rfl, rfl, h3, rfl, fun _ => rfl, fun _ => rfl⟩

/-- Witness of `main_tx_filter`: the run in which every call succeeds, applied
to a subscription that already watches another address and an outpoint. -/
theorem main_tx_filter_witness :
    Action.eff (Effect.loadTxFilter ⟨1⟩ true [some ⟨111⟩] [] none) ∈ (main okEnv).trace ∧
    (Subscription.mk [some ⟨9⟩] [⟨3, 0⟩]).loadTxFilter true [some ⟨111⟩] [] =
      ⟨[some ⟨111⟩], []⟩ :=
  have h : Action.eff (Effect.loadTxFilter ⟨1⟩ true [some ⟨111⟩] [] none) ∈
      (main okEnv).trace := by
    simp [main, okEnv]
  ⟨h, (main_tx_filter okEnv _ _ _ _ _ h).2.2.2.2.1 _⟩

/-- C6. There are 16 event kinds and the handler set of `main` has a callback
for each of them; a callback performs exactly one call, a `log.Printf`, whose
line begins with the name of the callback's own field; and two notifications
whose callbacks write the same line are of the same kind.  This holds for every
`log.Printf` that writes the text before the first `%` of its format unchanged. -/
theorem handlers_log_their_kind (sprintf : String → List LogValue → String)
    (h : CopiesLiteral sprintf) :
    Fintype.card EventKind = 16 ∧
    (∀ k : EventKind, ntfnHandlers.registered k = true) ∧
    (∀ n : Notification, ∃ format args,
      ntfnHandlers.dispatch n = [Effect.logPrintf format args] ∧
      (fieldName n.kind).data <+: (sprintf format args).data) ∧
    (∀ (n1 n2 : Notification) (f1 f2 : String) (a1 a2 : List LogValue),
      ntfnHandlers.dispatch n1 = [Effect.logPrintf f1 a1] →
      ntfnHandlers.dispatch n2 = [Effect.logPrintf f2 a2] →
      sprintf f1 a1 = sprintf f2 a2 → n1.kind = n2.kind) := by
  refine ⟨rfl, fun k => by cases k <;> rfl, fun n => ?_, ?_⟩
  · obtain ⟨rest, args, hd⟩ := dispatch_ntfnHandlers n
    exact ⟨_, _, hd, (fieldName_literalOf n.kind).trans
      (h _ rest args (literalOf_verb_free n.kind))⟩
  · intro n1 n2 f1 f2 a1 a2 h1 h2 heq
    obtain ⟨r1, b1, d1⟩ := dispatch_ntfnHandlers n1
    obtain ⟨r2, b2, d2⟩ := dispatch_ntfnHandlers n2
    rw [d1] at h1
    rw [d2] at h2
    simp only [List.cons.injEq, Effect.logPrintf.injEq, and_true] at h1 h2
    obtain ⟨rfl, rfl⟩ := h1
    obtain ⟨rfl, rfl⟩ := h2
    have p1 := h _ r1 b1 (literalOf_verb_free n1.kind)
    have p2 := h _ r2 b2 (literalOf_verb_free n2.kind)
    rw [heq] at p1
    rcases List.prefix_or_prefix_of_prefix p1 p2 with hp | hp
    · exact literalOf_incomparable _ _ hp
    · exact (literalOf_incomparable _ _ hp).symm

/-- Witness of `handlers_log_their_kind`: the formatting `sprintf`, at the
notification of a filtered block with one transaction. -/
theorem handlers_log_their_kind_witness :
    CopiesLiteral (sprintf sampleShow) ∧
    ntfnHandlers.dispatch (Notification.filteredBlockConnected 7 0 [1]) =
      [Effect.logPrintf "OnFilteredBlockConnected: %v\n" [LogValue.txs [1]]] ∧
    sprintf sampleShow "OnFilteredBlockConnected: %v\n" [LogValue.txs [1]] =
      "OnFilteredBlockConnected: [0xc000010000]\n" ∧
    ∀ k : EventKind, ntfnHandlers.registered k = true :=
  ⟨sprintf_copiesLiteral sampleShow, rfl, by decide,
    (handlers_log_their_kind (sprintf sampleShow) (sprintf_copiesLiteral sampleShow)).2.1⟩

/-- C7. In every observable run of the process, `client.Shutdown` is called at
most once, and only after `LoadTxFilter`, `NotifyBlocks` and
`NotifyNewTransactions` have returned without error; `main` itself never calls
it, `main` schedules at most one timer, and the function of that timer logs
"Client shutting down...", calls `Shutdown` on the client, and logs
"Client shutdown complete.". -/
theorem shutdown_once_after_subscriptions (env : Env) (r : List Action)
    (hr : r ∈ runs (main env).trace) :
    r.countP (fun a => decide (a.step = Step.shutdown)) ≤ 1 ∧
    (∀ before a after, r = before ++ a :: after → a.step = Step.shutdown →
      Subscribed before) ∧
    (∀ a ∈ (main env).trace, a.step ≠ Step.shutdown) ∧
    (main env).trace.countP (fun a => decide (a.step = Step.afterFunc)) ≤ 1 ∧
    (∀ d f, Action.afterFunc d f ∈ (main env).trace →
      f = [ Effect.logPrintln (LogValue.str "Client shutting down..."),
            Effect.shutdown (client env),
            Effect.logPrintln (LogValue.str "Client shutdown complete.") ]) := by
  obtain ⟨s1, s2, s3, s4, s5, s6, s7, s8, s9, s10, s11⟩ := step_calls env
  have hcb : ∀ d f, Action.afterFunc d f ∈ (main env).trace →
      f = [ Effect.logPrintln (LogValue.str "Client shutting down..."),
            Effect.shutdown (client env),
            Effect.logPrintln (LogValue.str "Client shutdown complete.") ] := by
    intro d f h
    rcases main_trace_mem env _ h with h | ⟨h, _⟩ | ⟨h, _⟩ | ⟨h, _⟩ | ⟨h, _⟩ | ⟨h, _⟩ |
      ⟨h, _⟩ | ⟨h | h | h, _⟩ | ⟨v, h⟩
    all_goals
      simp only [callReadFile, callNew, callDecodeAddress, callPrintAddr, callLoadTxFilter,
        callNotifyBlocks, callNotifyNewTransactions, callPrintShutdown, callAfterFunc,
        callWaitForShutdown, callFatal, Action.afterFunc.injEq, reduceCtorEq] at h
    exact h.2 ▸ rfl
  rcases main_cases env with ⟨e, he, hm⟩ | ⟨e, h1, he, hm⟩ | ⟨e, h1, h2, he, hm⟩ |
    ⟨e, h1, h2, h3, he, hm⟩ | ⟨e, h1, h2, h3, h4, he, hm⟩ |
    ⟨e, h1, h2, h3, h4, h5, he, hm⟩ | ⟨h1, h2, h3, h4, h5, h6, hm⟩
  rotate_right
  · have ht : (main env).trace = _ := congrArg Run.trace hm
    have hns : ∀ a ∈ (main env).trace, a.step ≠ Step.shutdown := by
      rw [ht]
      simp [s1, s2, s3, s4, s5, s6, s7, s8, s9, s10]
    have hnt : (main env).trace.countP (fun a => decide (a.step = Step.afterFunc)) ≤ 1 := by
      rw [ht]
      simp [List.countP_cons, s1, s2, s3, s4, s5, s6, s7, s8, s9, s10]
    have r4 : env.loadTxFilter (client env) true [recvAddr env] [] = none := h4
    have r5 : env.notifyBlocks (client env) = none := h5
    have r6 : env.notifyNewTransactions (client env) true = none := h6
    rw [ht] at hr
    simp only [runs, List.mem_flatMap, List.mem_inits] at hr
    obtain ⟨full, hfull, hpre⟩ := hr
    simp [executions, interleave, callReadFile, callNew, callDecodeAddress, callPrintAddr,
      callLoadTxFilter, callNotifyBlocks, callNotifyNewTransactions, callPrintShutdown,
      callAfterFunc, callWaitForShutdown, shutdownFunc] at hfull
    have key : full.countP (fun a => decide (a.step = Step.shutdown)) ≤ 1 ∧
        GuardedFrom [] full := by
      rcases hfull with rfl | rfl | rfl | rfl <;>
        simp [List.countP_cons, GuardedFrom, Subscribed, ReturnedOk, Action.step, Effect.step,
          Action.error, Effect.error, r4, r5, r6]
    obtain ⟨p1, p2⟩ := shutdown_props_of_beginning r full hpre key.1
      (fun before a after hsplit hs => by
        simpa using guardedFrom_split full [] key.2 before a after hsplit hs)
    exact ⟨p1, p2, hns, hnt, hcb⟩
  all_goals
    have ht : (main env).trace = _ := congrArg Run.trace hm
    have hno : ∀ a ∈ (main env).trace, a.step ≠ Step.afterFunc ∧ a.step ≠ Step.shutdown := by
      rw [ht]
      simp [s1, s2, s3, s4, s5, s6, s7, s11]
    have hnt : (main env).trace.countP (fun a => decide (a.step = Step.afterFunc)) ≤ 1 := by
      have : (main env).trace.countP (fun a => decide (a.step = Step.afterFunc)) = 0 := by
        rw [List.countP_eq_zero]
        intro a ha
        simpa using (hno a ha).1
      omega
    rw [runs, executions_of_no_timer _ (fun a ha => (hno a ha).1)] at hr
    simp only [List.flatMap_cons, List.flatMap_nil, List.append_nil, List.mem_inits] at hr
    obtain ⟨p1, p2⟩ := shutdown_props_of_none r (fun a ha => (hno a (hr.subset ha)).2)
    exact ⟨p1, p2, fun a ha => (hno a ha).2, hnt, hcb⟩

/-- Witness of `shutdown_once_after_subscriptions`: the run `okRun`, in which
`Shutdown` is called. -/
theorem shutdown_once_after_subscriptions_witness :
    okRun ∈ runs (main okEnv).trace ∧
    Action.eff (Effect.shutdown ⟨1⟩) ∈ okRun ∧
    okRun.countP (fun a => decide (a.step = Step.shutdown)) ≤ 1 :=
  have h : okRun ∈ runs (main okEnv).trace := by
    simp [runs, executions, interleave, main, okEnv, okRun, shutdownFunc, List.mem_inits]
  ⟨h, by simp [okRun, shutdownFunc], (shutdown_once_after_subscriptions okEnv okRun h).1⟩

/-- C8. The handler set a run of `main` hands to `rpcclient.New` has a callback
for the notifications of each subscription the run issues: `OnBlockConnected`
and `OnBlockDisconnected` for `NotifyBlocks`; `OnFilteredBlockConnected`,
`OnFilteredBlockDisconnected` and `OnRelevantTxAccepted` for `LoadTxFilter`;
`OnTxAcceptedVerbose` for `NotifyNewTransactions`, which is called with
`verbose = true`; and the variable holds the same handler set when `main` ends. -/
theorem subscriptions_have_handlers (env : Env) (cfg : ConnConfig)
    (handlers : NotificationHandlers) (res : Client × Option GoError)
    (h : Action.newClient cfg handlers res ∈ (main env).trace) :
    (∀ c r, Action.eff (Effect.notifyBlocks c r) ∈ (main env).trace →
      handlers.registered EventKind.blockConnected = true ∧
      handlers.registered EventKind.blockDisconnected = true) ∧
    (∀ c reload addresses outPoints r,
      Action.eff (Effect.loadTxFilter c reload addresses outPoints r) ∈ (main env).trace →
      handlers.registered EventKind.filteredBlockConnected = true ∧
      handlers.registered EventKind.filteredBlockDisconnected = true ∧
      handlers.registered EventKind.relevantTxAccepted = true) ∧
    (∀ c verbose r,
      Action.eff (Effect.notifyNewTransactions c verbose r) ∈ (main env).trace →
      verbose = true ∧ handlers.registered EventKind.txAcceptedVerbose = true) ∧
    (main env).ntfnHandlers = handlers := by
  have hh : handlers = ntfnHandlers := by
    rcases main_trace_mem env _ h with h | ⟨h, _⟩ | ⟨h, _⟩ | ⟨h, _⟩ | ⟨h, _⟩ | ⟨h, _⟩ |
      ⟨h, _⟩ | ⟨h | h | h, _⟩ | ⟨v, h⟩
    all_goals
      simp only [callReadFile, callNew, callDecodeAddress, callPrintAddr, callLoadTxFilter,
        callNotifyBlocks, callNotifyNewTransactions, callPrintShutdown, callAfterFunc,
        callWaitForShutdown, callFatal, Action.newClient.injEq, reduceCtorEq] at h
    exact h.2.1
  subst hh
  refine ⟨fun _ _ _ => ⟨rfl, rfl⟩, fun _ _ _ _ _ _ => ⟨rfl, rfl, rfl⟩, ?_,
    main_ntfnHandlers env⟩
  intro c verbose r hv
  refine ⟨?_, rfl⟩
  rcases main_trace_mem env _ hv with h | ⟨h, _⟩ | ⟨h, _⟩ | ⟨h, _⟩ | ⟨h, _⟩ | ⟨h, _⟩ |
    ⟨h, _⟩ | ⟨h | h | h, _⟩ | ⟨v, h⟩
  all_goals
    simp only [callReadFile, callNew, callDecodeAddress, callPrintAddr, callLoadTxFilter,
      callNotifyBlocks, callNotifyNewTransactions, callPrintShutdown, callAfterFunc,
      callWaitForShutdown, callFatal, Action.eff.injEq, Effect.notifyNewTransactions.injEq,
      reduceCtorEq] at h
  exact h.2.1

/-- Witness of `subscriptions_have_handlers`: the run in which every call
succeeds issues `NotifyNewTransactions` with `verbose = true`. -/
theorem subscriptions_have_handlers_witness :
    Action.newClient (connCfg [45, 45, 45]) ntfnHandlers (⟨1⟩, none) ∈ (main okEnv).trace ∧
    Action.eff (Effect.notifyNewTransactions ⟨1⟩ true none) ∈ (main okEnv).trace ∧
    ntfnHandlers.registered EventKind.txAcceptedVerbose = true :=
  have h : Action.newClient (connCfg [45, 45, 45]) ntfnHandlers (⟨1⟩, none) ∈
      (main okEnv).trace := by
    simp [main, okEnv]
  have hv : Action.eff (Effect.notifyNewTransactions ⟨1⟩ true none) ∈ (main okEnv).trace := by
    simp [main, okEnv]
  ⟨h, hv, ((subscriptions_have_handlers okEnv _ _ _ h).2.2.1 _ _ _ hv).2⟩

/-- C9. When `DecodeAddress` returns an error in `main`, the value handed to
`log.Fatal` is the address `recvAddr` (here nil), not the error returned. -/
theorem main_fatal_after_decode_error :
    (main decodeAddressFails).trace =
      [ Action.eff (Effect.readFile "/home/user/.btcd/rpc.cert" ([45, 45, 45], none)),
        Action.newClient (connCfg [45, 45, 45]) ntfnHandlers (⟨1⟩, none),
        Action.eff (Effect.decodeAddress "moTY3Dk25jUo7n14VY94Z8aUCxiWuVs34h"
          Params.TestNet3Params (none, some ⟨"checksum mismatch"⟩)),
        Action.eff (Effect.logFatal (LogValue.addr none)) ] ∧
    LogValue.addr none ≠ LogValue.err ⟨"checksum mismatch"⟩ ∧
    (main decodeAddressFails).outcome = Outcome.exited := by
  refine ⟨?_, by decide, ?_⟩
  · simp [main, decodeAddressFails, okEnv]
  · simp [main, decodeAddressFails, okEnv]

/-- C10, as stated, fails: `example` passes "1someAddressThatIsActuallyReal"
to `DecodeAddress`, a string with characters outside the Base58 alphabet; with
a decoder that rejects such strings `ListAccounts` succeeds and `SendMany` is
never called. -/
theorem example_literal_not_base58 :
    (base58Env.listAccounts ⟨1⟩).2 = none ∧
    Action.eff (Effect.decodeAddress "1someAddressThatIsActuallyReal" Params.MainNetParams
      (none, some ⟨"decoded address is of unknown format"⟩)) ∈
        (exampleFunc base58Env ⟨1⟩).trace ∧
    isBase58 "1someAddressThatIsActuallyReal" = false ∧
    (∀ a ∈ (exampleFunc base58Env ⟨1⟩).trace, a.step ≠ Step.sendMany) ∧
    (exampleFunc base58Env ⟨1⟩).outcome = Outcome.exited := by
  have hb : isBase58 "1someAddressThatIsActuallyReal" = false := by decide
  refine ⟨rfl, ?_, hb, ?_, ?_⟩
  · simp [exampleFunc, base58Env, okEnv, hb]
  · simp [exampleFunc, base58Env, okEnv, hb, Action.step, Effect.step]
  · simp [exampleFunc, base58Env, okEnv, hb]

/-- C10, amended.  The address literal of `main` consists of Base58 characters
only; the two literals of `example` do not.  Whenever `ListAccounts` succeeds:
if both `DecodeAddress` calls return no error, `example` calls `SendMany` with
the map that holds 100 for the second receiver and, when the two receivers are
different keys, 42 for the first; if the first `DecodeAddress` call returns an
error, `example` ends in `log.Fatalf` and never calls `SendMany`. -/
theorem example_reaches_sendMany (env : Env) (c : Client)
    (h : (env.listAccounts c).2 = none) :
    isBase58 "moTY3Dk25jUo7n14VY94Z8aUCxiWuVs34h" = true ∧
    isBase58 "1someAddressThatIsActuallyReal" = false ∧
    isBase58 "1anotherAddressThatsPrettyReal" = false ∧
    ((env.decodeAddress "1someAddressThatIsActuallyReal" Params.MainNetParams).2 = none →
      (env.decodeAddress "1anotherAddressThatsPrettyReal" Params.MainNetParams).2 = none →
      ∃ receivers,
        Action.eff (Effect.sendMany c "some-account-label-from-which-to-send" receivers
          (env.sendMany c "some-account-label-from-which-to-send" receivers)) ∈
            (exampleFunc env c).trace ∧
        GoMap.load receivers
          (env.decodeAddress "1anotherAddressThatsPrettyReal" Params.MainNetParams).1 =
            some 100 ∧
        ((env.decodeAddress "1someAddressThatIsActuallyReal" Params.MainNetParams).1 ≠
            (env.decodeAddress "1anotherAddressThatsPrettyReal" Params.MainNetParams).1 →
          receivers =
            [ ((env.decodeAddress "1someAddressThatIsActuallyReal" Params.MainNetParams).1, 42),
              ((env.decodeAddress "1anotherAddressThatsPrettyReal" Params.MainNetParams).1,
                100) ] ∧
          GoMap.load receivers
            (env.decodeAddress "1someAddressThatIsActuallyReal" Params.MainNetParams).1 =
              some 42)) ∧
    ((env.decodeAddress "1someAddressThatIsActuallyReal" Params.MainNetParams).2 ≠ none →
      (exampleFunc env c).outcome = Outcome.exited ∧
      (exampleFunc env c).trace.getLast?.map Action.step = some Step.fatal ∧
      ∀ a ∈ (exampleFunc env c).trace, a.step ≠ Step.sendMany) := by
  refine ⟨by decide, by decide, by decide, ?_, ?_⟩
  · intro h2 h3
    refine ⟨GoMap.store (GoMap.store []
      (env.decodeAddress "1someAddressThatIsActuallyReal" Params.MainNetParams).1 42)
      (env.decodeAddress "1anotherAddressThatsPrettyReal" Params.MainNetParams).1 100,
      ?_, ?_, ?_⟩
    · cases h4 : (env.sendMany c "some-account-label-from-which-to-send"
        (GoMap.store (GoMap.store []
          (env.decodeAddress "1someAddressThatIsActuallyReal" Params.MainNetParams).1 42)
          (env.decodeAddress "1anotherAddressThatsPrettyReal" Params.MainNetParams).1 100)).2
        <;> simp [exampleFunc, h, h2, h3, h4]
    · by_cases hk : (env.decodeAddress "1someAddressThatIsActuallyReal"
          Params.MainNetParams).1 =
          (env.decodeAddress "1anotherAddressThatsPrettyReal" Params.MainNetParams).1
      · simp [GoMap.store, GoMap.load, hk]
      · simp [GoMap.store, GoMap.load, hk]
    · intro hk
      simp [GoMap.store, GoMap.load, hk]
  · intro h2
    obtain ⟨e, he⟩ := Option.ne_none_iff_exists'.mp h2
    have ht : (exampleFunc env c).trace =
        (Action.eff (Effect.listAccounts c (env.listAccounts c)) ::
          (env.listAccounts c).1.map fun entry =>
            Action.eff (Effect.logPrintf "%s: %s"
              [LogValue.str entry.1, LogValue.amount entry.2])) ++
        [ Action.eff (Effect.decodeAddress "1someAddressThatIsActuallyReal"
            Params.MainNetParams
            (env.decodeAddress "1someAddressThatIsActuallyReal" Params.MainNetParams)),
          Action.eff (Effect.logFatalf "address receiver1 seems to be invalid: %v"
            [LogValue.err e]) ] := by
      simp [exampleFunc, h, he]
    refine ⟨by simp [exampleFunc, h, he], ?_, ?_⟩
    · rw [ht, List.getLast?_append]
      rfl
    · intro a ha
      rw [ht] at ha
      simp only [List.mem_append, List.mem_cons, List.mem_map, List.mem_singleton,
        List.not_mem_nil, or_false] at ha
      rcases ha with (rfl | ⟨x, _, rfl⟩) | rfl | rfl <;> simp [Action.step, Effect.step]

/-- Witness of `example_reaches_sendMany`: with a decoder that accepts both
literals of `example`, `SendMany` is reached with the two receivers mapped to
42 and 100. -/
theorem example_reaches_sendMany_witness :
    (okEnv.listAccounts ⟨1⟩).2 = none ∧
    ∃ receivers,
      Action.eff (Effect.sendMany ⟨1⟩ "some-account-label-from-which-to-send" receivers
        (okEnv.sendMany ⟨1⟩ "some-account-label-from-which-to-send" receivers)) ∈
          (exampleFunc okEnv ⟨1⟩).trace ∧
      receivers = [(some ⟨115⟩, 42), (some ⟨97⟩, 100)] :=
  have h : (okEnv.listAccounts ⟨1⟩).2 = none := rfl
  ⟨h, by
    obtain ⟨receivers, h1, _, h3⟩ :=
      (example_reaches_sendMany okEnv ⟨1⟩ h).2.2.2.1 rfl rfl
    exact ⟨receivers, h1, (h3 (by decide)).1⟩⟩

end Btcsuite
